import Mathlib

/-!
Shallow embedding of the MailBot core (LanternCX/MailBot) for checking the
natural-language specification against the source.

The embedding follows the Python sources:
* `src/core/models.py`   — data model (enums, `AccountStatus`, `EmailSnapshot`,
  `AIAnalysisResult`, `AIConfig`).  NOTE: the source `AIAnalysisResult` declares
  only `summary`, `category`, `priority`, `extracted_code`; the source `AIConfig`
  declares no `language` field.  Accesses to the undeclared attributes are
  modelled explicitly as raising (`Except PyError`), mirroring pydantic's
  behaviour for unknown attributes.
* `src/core/fetcher.py`  — `EmailFetcher.fetch_new_emails` / `_do_fetch` /
  `reset_error` / `clear_seen`.  IMAP, the stop signal and per-attempt failures
  are oracles (`AttemptOutcome`); wall-clock sleeping is recorded as a list of
  the backoff waits actually slept.
* `src/core/ai.py`       — `analyze_email`, `should_skip_ai`, `_parse_response`.
  The LLM call is an oracle (`LLMOutcome`).
* `src/core/notifiers/telegram.py` — `send_with_mode`, `_send_hybrid`,
  `_send_agent_card`, modelled at the level of the outbound payload shape.
* `src/core/manager.py`  — `ServiceManager._dispatch_notification`, including
  the Python positional-arity check of the `send_with_mode` call.
* `src/core/bot.py`      — `TelegramBotHandler.cache_email`, `_cb_translate`,
  `_runtime_ai_config`, with the per-call Telegram API effects recorded.
-/

namespace MailBot

/-! ## Python runtime errors

Exceptions that the embedded code can raise.  `attributeError` models reading
an attribute a pydantic model does not declare, `fieldValueError` models
pydantic rejecting assignment to an undeclared field, `typeError` models a
positional-arity mismatch at a call site. -/

inductive PyError where
  | attributeError
  | fieldValueError
  | typeError
  deriving DecidableEq, Repr

/-! ## models.py — enums and data model -/

/-- models.py `AccountState`. -/
inductive AccountState where
  | idle
  | running
  | error
  | authFailed
  | disabled
  deriving DecidableEq, Repr

/-- models.py `OperationMode`. -/
inductive OperationMode where
  | raw
  | hybrid
  | agent
  deriving DecidableEq, Repr

/-- models.py `AccountStatus` (runtime status for an account). -/
structure AccountStatus where
  name : String
  email : String
  state : AccountState := .idle
  lastCheck : Option Nat := none
  errorMessage : String := ""
  forwardedCount : Nat := 0
  retryCount : Nat := 0
  deriving DecidableEq, Repr

/-- models.py `EmailSnapshot` (immutable snapshot of a fetched email).
Dates are modelled as integer UTC timestamps. -/
structure EmailSnapshot where
  uid : String
  accountName : String
  subject : String := "(No subject)"
  sender : String := ""
  date : Option Int := none
  bodyText : String := ""
  bodyHtml : String := ""
  webLink : String := ""
  deriving DecidableEq, Repr

/-- models.py `AIAnalysisResult`.  The source model (models.py:228-239) declares
exactly these four fields — in particular no `source_language` and no
`translation` field. -/
structure AIAnalysisResult where
  summary : String := "Unable to generate summary"
  category : String := "notification"
  priority : Nat := 3
  extractedCode : Option String := none
  deriving DecidableEq, Repr

/-- Python attribute lookup `result.translation` (telegram.py:186, bot.py:753):
`AIAnalysisResult` declares no such field, so pydantic raises
`AttributeError`. -/
def AIAnalysisResult.getattr_translation (_ : AIAnalysisResult) :
    Except PyError (Option String) :=
  .error .attributeError

/-- models.py `AIConfig`.  The source model (models.py:122-135) declares
exactly these fields — in particular no `language` field. -/
structure AIConfig where
  enabled : Bool := false
  provider : String := "openai"
  apiKey : Option String := none
  model : String := "gpt-4o-mini"
  baseUrl : Option String := none
  defaultMode : OperationMode := .hybrid
  deriving DecidableEq, Repr

/-- Python attribute lookup `config.language` (ai.py:129, bot.py:65):
`AIConfig` declares no such field, so pydantic raises `AttributeError`. -/
def AIConfig.getattr_language (_ : AIConfig) : Except PyError String :=
  .error .attributeError

/-! ## fetcher.py — data and helpers -/

/-- A message as listed by the IMAP server (`mailbox.fetch(AND(seen=False), ...)`).
`parseOk` is the oracle for whether `parse_email` succeeds on this message
(the fetch loop wraps the call in try/except, fetcher.py:240-245). -/
structure Msg where
  uid : String
  date : Option Int := none
  parseOk : Bool := true
  subject : String := ""
  sender : String := ""
  bodyText : String := ""
  bodyHtml : String := ""
  deriving DecidableEq, Repr

/-- parser.py `parse_email`, at the granularity the fetch loop observes: either
it returns a snapshot built from the message fields (uid is always
`str(msg.uid)`), or it raises (modelled by `parseOk = false`). -/
def parse_email (accountName : String) (m : Msg) : Option EmailSnapshot :=
  if m.parseOk then
    some { uid := m.uid
           accountName := accountName
           subject := if m.subject = "" then "(No subject)" else m.subject
           sender := m.sender
           date := m.date
           bodyText := m.bodyText
           bodyHtml := m.bodyHtml
           webLink := "" }
  else none

/-- fetcher.py:33 `BACKOFF_BASE`. -/
def BACKOFF_BASE : List Nat := [5, 10, 30]

/-- fetcher.py:34 `MAX_RETRIES_DEFAULT`. -/
def MAX_RETRIES_DEFAULT : Nat := 3

/-- fetcher.py:154 `BACKOFF_BASE[min(attempt, len(BACKOFF_BASE) - 1)]`. -/
def backoffWait (attempt : Nat) : Nat :=
  BACKOFF_BASE.getD (min attempt (BACKOFF_BASE.length - 1)) 0

/-- fetcher.py:88-93 `EmailFetcher.is_errored`. -/
def AccountStatus.is_errored (s : AccountStatus) : Bool :=
  s.state = AccountState.authFailed ∨ s.state = AccountState.disabled

/-- Python `set.add` on the seen-uid set, modelled on a duplicate-free list. -/
def setAdd (s : List String) (x : String) : List String :=
  if x ∈ s then s else x :: s

/-- The mutable per-account fetcher state (`EmailFetcher.__init__`). -/
structure FetcherState where
  seenUids : List String := []
  bootstrapDone : Bool := false
  startedAt : Int := 0
  status : AccountStatus
  deriving DecidableEq, Repr

/-- fetcher.py:268-274 `_normalize_dt` followed by the comparison
`msg_dt and msg_dt < self._started_at` (fetcher.py:234-235): true exactly when
the message has a date and it is strictly before the service start. -/
def dateBeforeStart (d : Option Int) (startedAt : Int) : Bool :=
  match d with
  | some t => t < startedAt
  | none => false

/-- Accumulator of the message loop inside `_do_fetch`. -/
structure DoFetchAcc where
  seen : List String
  snapshots : List EmailSnapshot
  deriving DecidableEq, Repr

/-- One iteration of the message loop in `_do_fetch` (fetcher.py:223-245):
skip already-seen uids; during bootstrap mark seen without forwarding; skip and
mark pre-start mail; otherwise parse, forward and mark, dropping the message on
parse failure without marking it. -/
def processMessage (accountName : String) (bootstrapDone : Bool)
    (startedAt : Int) (acc : DoFetchAcc) (m : Msg) : DoFetchAcc :=
  if m.uid ∈ acc.seen then acc
  else if ¬ bootstrapDone then { acc with seen := setAdd acc.seen m.uid }
  else if dateBeforeStart m.date startedAt then
    { acc with seen := setAdd acc.seen m.uid }
  else
    match parse_email accountName m with
    | some snap =>
        { seen := setAdd acc.seen m.uid, snapshots := acc.snapshots ++ [snap] }
    | none => acc

/-- fetcher.py:217 `fetch_limit = None if not self._bootstrap_done else 50`. -/
def fetchLimit (bootstrapDone : Bool) : Option Nat :=
  if bootstrapDone then some 50 else none

/-- Python `mailbox.fetch(..., limit=fetch_limit, ...)`: the per-folder listing
bounded by the page size when a limit is set. -/
def applyLimit : Option Nat → List Msg → List Msg
  | none, l => l
  | some n, l => l.take n

/-- Result of one `_do_fetch` call. -/
structure DoFetchResult where
  snapshots : List EmailSnapshot
  state : FetcherState
  deriving DecidableEq, Repr

/-- fetcher.py:198-266 `EmailFetcher._do_fetch`.  `folders` is the oracle for
what the server lists per configured folder (most-recent-first, as returned);
`now` is the wall clock read for `last_check`. -/
def do_fetch (st : FetcherState) (accountName : String)
    (folders : List (List Msg)) (now : Nat) : DoFetchResult :=
  let msgs := (folders.map (applyLimit (fetchLimit st.bootstrapDone))).flatten
  let acc := msgs.foldl
    (processMessage accountName st.bootstrapDone st.startedAt)
    ⟨st.seenUids, []⟩
  let status1 :=
    if acc.snapshots.isEmpty then st.status
    else { st.status with
            forwardedCount := st.status.forwardedCount + acc.snapshots.length }
  let status2 := { status1 with lastCheck := some now }
  { snapshots := acc.snapshots
    state := { st with
                seenUids := acc.seen
                bootstrapDone := true
                status := status2 } }

/-- Outcome of one connect-and-fetch attempt, the oracle for the exception
branches of fetcher.py:131-185: success with the per-folder listings, a
`MailboxLoginError`, a `TimeoutError`/`OSError`/`ConnectionError`, or any
other exception.  Each failure carries the exception text. -/
inductive AttemptOutcome where
  | success (folders : List (List Msg))
  | loginError (msg : String)
  | netError (msg : String)
  | unexpectedError (msg : String)

/-- Result of one `fetch_new_emails` call: the returned snapshots, the
post-call state, the backoff waits actually slept (in seconds, one entry per
completed backoff), and the number of attempts started. -/
structure FetchCallResult where
  snapshots : List EmailSnapshot
  state : FetcherState
  sleeps : List Nat
  attemptsMade : Nat

/-- The retry loop `for attempt in range(self._max_retries)`
(fetcher.py:126-196), run with `fuel` attempts remaining and `attempt` the
current index.  `outcome` is the oracle for each attempt; `stopCheck` models
the stop predicate (constant within a call).  Status-change listener failures
(fetcher.py:98-102) are ignored, as in the source. -/
def fetchLoop (accountName : String) (maxRetries : Nat)
    (outcome : Nat → AttemptOutcome) (stopCheck : Bool) (now : Nat) :
    FetcherState → Nat → Nat → List Nat → FetchCallResult
  | st, _, 0, sleeps =>
      { snapshots := []
        state := { st with status :=
          { st.status with
              state := .error
              errorMessage :=
                "Failed after " ++ toString maxRetries ++ " retries" } }
        sleeps := sleeps
        attemptsMade := maxRetries }
  | st, attempt, fuel + 1, sleeps =>
      if stopCheck then
        { snapshots := []
          state := { st with status := { st.status with state := .idle } }
          sleeps := sleeps
          attemptsMade := attempt }
      else
        match outcome attempt with
        | .success folders =>
            let r := do_fetch st accountName folders now
            { snapshots := r.snapshots
              state := { r.state with status :=
                { r.state.status with state := .idle, retryCount := 0 } }
              sleeps := sleeps
              attemptsMade := attempt + 1 }
        | .loginError e =>
            { snapshots := []
              state := { st with status :=
                { st.status with
                    state := .authFailed
                    errorMessage := "Authentication failed: " ++ e } }
              sleeps := sleeps
              attemptsMade := attempt + 1 }
        | .netError _ =>
            let wait := backoffWait attempt
            let st' : FetcherState := { st with status :=
              { st.status with
                  state := .error
                  errorMessage :=
                    "Network error, retrying (" ++ toString (attempt + 1)
                      ++ "/" ++ toString maxRetries ++ ")"
                  retryCount := attempt + 1 } }
            fetchLoop accountName maxRetries outcome stopCheck now
              st' (attempt + 1) fuel (sleeps ++ [wait])
        | .unexpectedError e =>
            { snapshots := []
              state := { st with status :=
                { st.status with
                    state := .error
                    errorMessage := "Unexpected error: " ++ e.take 100 } }
              sleeps := sleeps
              attemptsMade := attempt + 1 }

/-- fetcher.py:104-196 `EmailFetcher.fetch_new_emails`: short-circuit when the
account is in a terminal error state or disabled, otherwise mark the account
running and enter the retry loop. -/
def fetch_new_emails (st : FetcherState) (accountName : String)
    (enabled : Bool) (maxRetries : Nat) (outcome : Nat → AttemptOutcome)
    (stopCheck : Bool) (now : Nat) : FetchCallResult :=
  if st.status.is_errored then
    { snapshots := [], state := st, sleeps := [], attemptsMade := 0 }
  else if ¬ enabled then
    { snapshots := [], state := st, sleeps := [], attemptsMade := 0 }
  else
    let st' : FetcherState := { st with status :=
      { st.status with state := .running, errorMessage := "" } }
    fetchLoop accountName maxRetries outcome stopCheck now st' 0 maxRetries []

/-- fetcher.py:276-284 `EmailFetcher.reset_error`. -/
def reset_error (st : FetcherState) : FetcherState :=
  if st.status.state = AccountState.error
      ∨ st.status.state = AccountState.authFailed then
    { st with status :=
      { st.status with state := .idle, errorMessage := "", retryCount := 0 } }
  else st

/-- fetcher.py:286-290 `EmailFetcher.clear_seen`. -/
def clear_seen (st : FetcherState) : FetcherState :=
  { st with seenUids := [] }

/-- One `fetch_new_emails` call of a poll sequence: whether the account is
enabled, the attempt-outcome oracle, the stop predicate and the wall clock. -/
structure CallSpec where
  enabled : Bool
  outcome : Nat → AttemptOutcome
  stopCheck : Bool
  now : Nat

/-- A sequence of `fetch_new_emails` calls (one per poll tick, with no
intervening `clear_seen`), returning the final state and all snapshots
forwarded across the sequence. -/
def runFetchSequence (accountName : String) (maxRetries : Nat) :
    FetcherState → List CallSpec → FetcherState × List EmailSnapshot
  | st, [] => (st, [])
  | st, c :: cs =>
      let r := fetch_new_emails st accountName c.enabled maxRetries
        c.outcome c.stopCheck c.now
      let rest := runFetchSequence accountName maxRetries r.state cs
      (rest.1, r.snapshots ++ rest.2)

/-! ## ai.py — analysis and the Hybrid skip heuristic -/

/-- The JSON object a successful LLM response parses to, per `ANALYSIS_SCHEMA`
(ai.py:79-109): all six keys are required by the schema. -/
structure ParsedAnalysis where
  summary : String
  category : String
  priority : Nat
  extractedCode : Option String
  sourceLanguage : String
  translation : Option String
  deriving DecidableEq, Repr

/-- ai.py:198-200 `_default_result`: a default-constructed `AIAnalysisResult`. -/
def default_result : AIAnalysisResult := {}

/-- ai.py:231-241 `_parse_response` ending in `AIAnalysisResult.model_validate`:
pydantic validation ignores keys that are not declared fields, so the
`source_language` and `translation` values returned by the LLM are dropped. -/
def parse_response (p : ParsedAnalysis) : AIAnalysisResult :=
  { summary := p.summary
    category := p.category
    priority := p.priority
    extractedCode := p.extractedCode }

/-- Outcome of the LLM completion call inside `analyze_email` (ai.py:310-341):
parsed JSON content, unparsable content, empty content, or a raised
exception. -/
inductive LLMOutcome where
  | content (p : ParsedAnalysis)
  | jsonDecodeError
  | emptyContent
  | exception

/-- ai.py:248-341 `analyze_email`.  With `enabled = False` the safe default is
returned at once; otherwise `build_system_prompt` (called at ai.py:300,
outside the try block) reads `config.language` (ai.py:129) — an attribute
`AIConfig` does not declare — so the call raises before any LLM request.  The
failure branches of the LLM call itself all return the safe default. -/
def analyze_email (config : AIConfig) (llm : LLMOutcome) :
    Except PyError AIAnalysisResult :=
  if ¬ config.enabled then .ok default_result
  else
    match config.getattr_language with
    | .error e => .error e
    | .ok _ =>
        match llm with
        | .content p => .ok (parse_response p)
        | .jsonDecodeError => .ok default_result
        | .emptyContent => .ok default_result
        | .exception => .ok default_result

/-- Python `\s` membership for the whitespace characters relevant here. -/
def isPySpace (c : Char) : Bool :=
  c == ' ' || c == '\t' || c == '\n' || c == '\r' || c == '\x0b' || c == '\x0c'

/-- Match a literal pattern (given in lowercase) at the head of `cs`,
case-insensitively (the skip regex is compiled with `re.IGNORECASE`); return
the remaining text on success. -/
def matchLit : List Char → List Char → Option (List Char)
  | [], cs => some cs
  | _ :: _, [] => none
  | p :: ps, c :: cs => if c.toLower = p then matchLit ps cs else none

/-- Greedy `\s*`.  Every regex alternative continues with a non-whitespace
character after `\s*`, so greedy matching is equivalent to backtracking. -/
def skipWs : List Char → List Char
  | [] => []
  | c :: cs => if isPySpace c then skipWs cs else c :: cs

/-- The regex alternative `sign.?in`: `sign`, then at most one character (any
character but a newline), then `in`. -/
def matchSignIn (cs : List Char) : Bool :=
  match matchLit "sign".toList cs with
  | none => false
  | some rest =>
      (matchLit "in".toList rest).isSome ||
        (match rest with
         | [] => false
         | c :: rest2 => c != '\n' && (matchLit "in".toList rest2).isSome)

/-- The regex alternative `code\s*[:：]`. -/
def matchCodeColon (cs : List Char) : Bool :=
  match matchLit "code".toList cs with
  | none => false
  | some rest =>
      match skipWs rest with
      | [] => false
      | c :: _ => c == ':' || c == '：'

/-- A match, at one position, of the skip pattern
`(验证码|verification\s*code|登录|login|sign.?in|code\s*[:：])` (ai.py:355-358). -/
def skipPatternAt (cs : List Char) : Bool :=
  (matchLit "验证码".toList cs).isSome ||
  (match matchLit "verification".toList cs with
   | some rest => (matchLit "code".toList (skipWs rest)).isSome
   | none => false) ||
  (matchLit "登录".toList cs).isSome ||
  (matchLit "login".toList cs).isSome ||
  matchSignIn cs ||
  matchCodeColon cs

/-- `re.search` of the skip pattern: a match starting at any position. -/
def skipPatternSearch : List Char → Bool
  | [] => false
  | cs@(_ :: rest) => skipPatternAt cs || skipPatternSearch rest

/-- ai.py:344-362 `should_skip_ai`: short bodies skip AI, and so does any body
whose first 300 characters contain a verification/login pattern. -/
def should_skip_ai (body : String) : Bool :=
  if body.length < 100 then true
  else skipPatternSearch (body.toList.take 300)

/-! ## notifiers — outbound payload shapes -/

/-- An inline-keyboard button (text plus callback data). -/
structure TgButton where
  text : String
  callbackData : String
  deriving DecidableEq, Repr

/-- The outbound notification payload shapes the Telegram notifier can build:
the plain forward (base.py `format_message` via `send`), the Hybrid preview
with its inline keyboard (telegram.py:130-156), and the Agent structured card
(telegram.py:162-193). -/
inductive Outbound where
  | plainForward (snapshot : EmailSnapshot)
  | hybridPreview (snapshot : EmailSnapshot) (preview : String)
      (keyboard : List (List TgButton))
  | agentCard (snapshot : EmailSnapshot) (result : AIAnalysisResult)
  deriving DecidableEq, Repr

/-- telegram.py:520-527 `_escape_html`. -/
def escape_html (text : String) : String :=
  ((text.replace "&" "&amp;").replace "<" "&lt;").replace ">" "&gt;"

/-- telegram.py:80-83 `send`: the plain forward, no AI. -/
def send (snapshot : EmailSnapshot) : Except PyError Outbound :=
  .ok (.plainForward snapshot)

/-- telegram.py:116-156 `_send_hybrid`: short or code-like bodies are sent as
a plain forward without any AI affordance; otherwise a 50-character preview is
sent with a single inline `✨ AI Summary` button. -/
def send_hybrid (snapshot : EmailSnapshot) : Except PyError Outbound :=
  if should_skip_ai snapshot.bodyText then send snapshot
  else
    let body := snapshot.bodyText
    let preview := if body.length > 50 then body.take 50 ++ "…" else body.take 50
    .ok (.hybridPreview snapshot preview
      [[⟨"✨ AI Summary", "summ_" ++ snapshot.uid⟩]])

/-- telegram.py:162-193 `_send_agent_card`, at payload-shape granularity: the
header, summary and optional code block use declared fields, but the
translation block (telegram.py:186) then reads `result.translation` — a field
`AIAnalysisResult` does not declare — so building the card raises before any
API call is made. -/
def send_agent_card (snapshot : EmailSnapshot) (result : AIAnalysisResult) :
    Except PyError Outbound :=
  match result.getattr_translation with
  | .error e => .error e
  | .ok _ => .ok (.agentCard snapshot result)

/-- telegram.py:85-110 `send_with_mode`. -/
def send_with_mode (snapshot : EmailSnapshot) (mode : OperationMode)
    (aiResult : Option AIAnalysisResult) : Except PyError Outbound :=
  match mode with
  | .raw => send snapshot
  | .hybrid => send_hybrid snapshot
  | .agent =>
      match aiResult with
      | some r => send_agent_card snapshot r
      | none => send snapshot

/-! ## manager.py — the dispatch pipeline -/

/-- telegram.py:85-90: `send_with_mode(self, snapshot, mode, ai_result=None)`
accepts at most 3 positional arguments besides `self`, at least 2. -/
def sendWithModeMaxArgs : Nat := 3

/-- Minimum positional arguments of `send_with_mode` besides `self`. -/
def sendWithModeMinArgs : Nat := 2

/-- manager.py:320 passes the 4 positional arguments
`snapshot, current_mode, ai_result, target_lang`. -/
def managerSendWithModeArgs : Nat := 4

/-- Python positional-call arity check. -/
def pythonArityOk (given minArgs maxArgs : Nat) : Bool :=
  minArgs ≤ given && given ≤ maxArgs

/-- The call at manager.py:320: if the number of positional arguments fits the
signature, the method body runs; otherwise Python raises `TypeError` at the
call site, before the method body executes. -/
def call_send_with_mode (snapshot : EmailSnapshot) (mode : OperationMode)
    (aiResult : Option AIAnalysisResult) : Except PyError Outbound :=
  if pythonArityOk managerSendWithModeArgs sendWithModeMinArgs
      sendWithModeMaxArgs then
    send_with_mode snapshot mode aiResult
  else .error .typeError

/-- The runtime state of `TelegramBotHandler` that the dispatch and callback
paths read and write (bot.py:49-88): global mode and language, the AI-enabled
flag, the pending email cache and the source-language cache (both
insertion-ordered dicts). -/
structure BotHandlerState where
  mode : OperationMode := .hybrid
  language : String := "auto"
  aiEnabled : Bool := false
  emailCache : List (String × EmailSnapshot) := []
  slCache : List (String × String) := []
  deriving DecidableEq, Repr

/-- Keys of an insertion-ordered dict, in insertion order. -/
def dictKeys (d : List (String × α)) : List String := d.map (·.1)

/-- Python dict assignment `d[k] = v`: an existing key keeps its position and
gets the new value; a new key is appended (insertion order). -/
def dictInsert (d : List (String × α)) (k : String) (v : α) :
    List (String × α) :=
  if k ∈ dictKeys d then d.map (fun p => if p.1 = k then (k, v) else p)
  else d ++ [(k, v)]

/-- Python `d.get(k)`. -/
def dictGet (d : List (String × α)) (k : String) : Option α :=
  (d.find? (fun p => p.1 == k)).map (·.2)

/-- bot.py:137-138 `if source_language:` — the source-language cache is
written only when `source_language` is truthy (non-None and non-empty). -/
def slCacheInsert (slCache : List (String × String)) (uid : String) :
    Option String → List (String × String)
  | some s => if s ≠ "" then dictInsert slCache uid s else slCache
  | none => slCache

/-- bot.py:133-143 `cache_email`: store the snapshot (and, when truthy, its
source language); when the email cache then holds more than 200 entries, pop
the 100 oldest keys by insertion order from both caches. -/
def cache_email (bot : BotHandlerState) (snapshot : EmailSnapshot)
    (sourceLanguage : Option String) : BotHandlerState :=
  let ec := dictInsert bot.emailCache snapshot.uid snapshot
  let sc := slCacheInsert bot.slCache snapshot.uid sourceLanguage
  if ec.length > 200 then
    let oldest := (dictKeys ec).take 100
    { bot with
        emailCache := ec.filter (fun p => p.1 ∉ oldest)
        slCache := sc.filter (fun p => p.1 ∉ oldest) }
  else { bot with emailCache := ec, slCache := sc }

/-- A sequence of `cache_email` calls. -/
def runCacheCalls (bot : BotHandlerState) :
    List (EmailSnapshot × Option String) → BotHandlerState
  | [] => bot
  | c :: cs => runCacheCalls (cache_email bot c.1 c.2) cs

/-- Observable effects of one `_dispatch_notification` call
(manager.py:289-353). -/
structure DispatchTrace where
  cacheCalls : Nat
  outboundSends : List Outbound
  caughtErrors : Nat
  successCount : Nat
  deriving DecidableEq, Repr

/-- manager.py:289-353 `ServiceManager._dispatch_notification`, for the
configured system (one Telegram notifier; the bot handler exists exactly when
a Telegram notifier does, manager.py:150-175).  With a bot handler: the
snapshot is cached (`ai_result` is still `None` at manager.py:302), Agent mode
then runs `analyze_email` — whose exception, if any, escapes the method — and
the notifier call is made with 4 positional arguments against a 3-parameter
signature; any exception it raises is caught by manager.py:332-337. -/
def dispatch_notification (bot : Option BotHandlerState) (aiCfg : AIConfig)
    (llm : LLMOutcome) (snapshot : EmailSnapshot) :
    DispatchTrace × Option BotHandlerState × Option PyError :=
  match bot with
  | none =>
      ({ cacheCalls := 0, outboundSends := [], caughtErrors := 0
         successCount := 0 }, none, none)
  | some b =>
      let mode := b.mode
      let b' := cache_email b snapshot none
      let aiRes : Except PyError (Option AIAnalysisResult) :=
        if mode = OperationMode.agent then (analyze_email aiCfg llm).map some
        else .ok none
      match aiRes with
      | .error e =>
          ({ cacheCalls := 1, outboundSends := [], caughtErrors := 0
             successCount := 0 }, some b', some e)
      | .ok r =>
          match call_send_with_mode snapshot mode r with
          | .ok o =>
              ({ cacheCalls := 1, outboundSends := [o], caughtErrors := 0
                 successCount := 1 }, some b', none)
          | .error _ =>
              ({ cacheCalls := 1, outboundSends := [], caughtErrors := 1
                 successCount := 0 }, some b', none)

/-! ## bot.py — the translate callback -/

/-- bot.py:826-831 `_runtime_ai_config`:
`self._ai_config.language = self.language` assigns to a field `AIConfig`
(models.py:122-135) does not declare; pydantic rejects assignment to an
undeclared field, so the call raises. -/
def runtime_ai_config (_bot : BotHandlerState) : Except PyError AIConfig :=
  .error .fieldValueError

/-- Telegram API effects issued by a callback handler. -/
inductive BotEffect where
  | answerCallback (text : String)
  | chatAction
  | editMessage (text : String)
  | sendMessage (text : String)
  deriving DecidableEq, Repr

/-- Result of one callback handler run: the effects issued before the handler
finished or raised, and the exception that escaped, if any (an escaping
exception is caught and logged by the polling loop, bot.py:223-226, so no
further message is sent for this callback). -/
structure CbOutcome where
  effects : List BotEffect
  raised : Option PyError
  deriving DecidableEq, Repr

/-- bot.py:705-771 `_cb_translate`: answer the callback, look up the cache
(miss → edit the original message to an expiry notice), then show typing,
build the runtime AI config, run the analysis, and send a translation message
whose body is the translation if present and truthy, and the literal
`⚠️ No translation available.` text otherwise. -/
def cb_translate (bot : BotHandlerState) (uid : String) (llm : LLMOutcome) :
    CbOutcome :=
  let e0 : List BotEffect := [.answerCallback "Generating translation…"]
  match dictGet bot.emailCache uid with
  | none =>
      { effects := e0 ++
          [.editMessage "⚠️ Email cache expired; cannot generate translation."]
        raised := none }
  | some snapshot =>
      let e1 := e0 ++ [.chatAction]
      match runtime_ai_config bot with
      | .error e => { effects := e1, raised := some e }
      | .ok cfg =>
          match analyze_email cfg llm with
          | .error e => { effects := e1, raised := some e }
          | .ok result =>
              match result.getattr_translation with
              | .error e => { effects := e1, raised := some e }
              | .ok t =>
                  let transLine :=
                    match t with
                    | some s =>
                        if s ≠ "" then escape_html s
                        else "⚠️ No translation available."
                    | none => "⚠️ No translation available."
                  let lines := ["🌐 <b>Translation</b>", transLine] ++
                    (if snapshot.webLink ≠ "" then
                      ["\n🔗 <a href=\"" ++ snapshot.webLink
                        ++ "\">Open in webmail</a>"]
                     else [])
                  { effects := e1 ++
                      [.sendMessage (String.intercalate "\n" lines)]
                    raised := none }

/-- Case-sensitive literal prefix match. -/
def litPrefix : List Char → List Char → Bool
  | [], _ => true
  | _ :: _, [] => false
  | p :: ps, c :: cs => p == c && litPrefix ps cs

/-- Case-sensitive substring containment. -/
def containsSub : List Char → List Char → Bool
  | [], need => litPrefix need []
  | hay@(_ :: rest), need => litPrefix need hay || containsSub rest need

/-- Whether a bot effect sends or edits text containing the given fragment. -/
def BotEffect.mentions (e : BotEffect) (fragment : String) : Bool :=
  match e with
  | .sendMessage t => containsSub t.toList fragment.toList
  | .editMessage t => containsSub t.toList fragment.toList
  | _ => false

/-! ## Invariant of the message loop

The invariant carried through the fold inside `_do_fetch`: the initial seen
set only grows, forwarded uids are pairwise distinct, every forwarded uid is
marked seen, and no forwarded uid was seen before the call. -/

/-- Loop invariant for the fold of `processMessage` inside `_do_fetch`. -/
def DoFetchInv (seen₀ : List String) (acc : DoFetchAcc) : Prop :=
  seen₀ ⊆ acc.seen
  ∧ (acc.snapshots.map EmailSnapshot.uid).Nodup
  ∧ (∀ s ∈ acc.snapshots, s.uid ∈ acc.seen)
  ∧ (∀ s ∈ acc.snapshots, s.uid ∉ seen₀)

/-! ## Concrete inputs for witnesses and counterexamples -/

/-- A fixed account status for concrete runs. -/
def statusWork : AccountStatus := { name := "Work", email := "w@example.com" }

/-- A fetcher state with bootstrap already complete and nothing seen. -/
def stBootDone : FetcherState :=
  { seenUids := [], bootstrapDone := true, startedAt := 0, status := statusWork }

/-- A fresh fetcher state (first poll still ahead). -/
def stBootNew : FetcherState := { status := statusWork }

/-- A post-start message whose parse raises. -/
def msgParseFail : Msg := { uid := "1", date := some 5, parseOk := false }

/-- A plain message for the bootstrap witness. -/
def msgNew1 : Msg := { uid := "7" }

/-- One poll call listing only `msgParseFail`. -/
def callC1 : CallSpec :=
  { enabled := true, outcome := fun _ => .success [[msgParseFail]]
    stopCheck := false, now := 0 }

/-- The fetch of `callC1` from the bootstrapped state. -/
def fetchC1 : FetchCallResult :=
  fetch_new_emails stBootDone "Work" true 3 callC1.outcome false 0

/-- Outcome oracle raising a login error on every attempt. -/
def outcomeAuth : Nat → AttemptOutcome := fun _ => .loginError "bad password"

/-- Outcome oracle raising a network error on every attempt. -/
def outcomeNet : Nat → AttemptOutcome := fun _ => .netError "conn reset"

/-- Outcome oracle: a network error, then success. -/
def outcomeNetThenOk : Nat → AttemptOutcome :=
  fun k => if k = 0 then .netError "t" else .success []

/-- Outcome oracle raising an unexpected exception on every attempt. -/
def outcomeUnexpected : Nat → AttemptOutcome := fun _ => .unexpectedError "boom"

/-- Outcome oracle: a network error, then an unexpected exception. -/
def outcomeNetThenBoom : Nat → AttemptOutcome :=
  fun k => if k = 0 then .netError "t" else .unexpectedError "boom"

/-- The fetch whose first attempt raises an unexpected exception. -/
def fetchC6 : FetchCallResult :=
  fetch_new_emails stBootDone "Work" true 3 outcomeUnexpected false 0

/-- A snapshot for the Agent-mode failure run. -/
def snapC7 : EmailSnapshot := { uid := "u9", accountName := "acct" }

/-- A bot state whose pending cache holds one entry under uid `u1`. -/
def botC8 : BotHandlerState :=
  { emailCache := [("u1", { uid := "u1", accountName := "acct" })] }

/-- The short verification-code body from the spec example (17 characters). -/
def bodyShort : String := "Your code: 123456"

/-- A 400-character prose body with no code/login pattern. -/
def bodyLong : String :=
  String.join (List.replicate 10 "mountain rivers flow under autumn skies ")

/-- Snapshot carrying the short body. -/
def snapShort : EmailSnapshot :=
  { uid := "s1", accountName := "acct", bodyText := bodyShort }

/-- Snapshot carrying the long body. -/
def snapLong : EmailSnapshot :=
  { uid := "s2", accountName := "acct", bodyText := bodyLong }

/-- Distinct snapshots for filling the pending cache. -/
def snapK (i : Nat) : EmailSnapshot :=
  { uid := "k" ++ toString i, accountName := "acct" }

/-- A pending email cache holding exactly 200 distinct keys. -/
def bigCache : List (String × EmailSnapshot) :=
  (List.range 200).map (fun i => ("k" ++ toString i, snapK i))

/-- A bot state whose pending cache is full. -/
def botBig : BotHandlerState := { emailCache := bigCache }

/-- A snapshot with a fresh uid, pushing `bigCache` past the high-water mark. -/
def snapNew : EmailSnapshot := { uid := "new", accountName := "acct" }

/-! ## Supporting lemmas -/

/-- Membership in the seen set after a `set.add`. -/
theorem mem_setAdd {s : List String} {u x : String} :
    x ∈ setAdd s u ↔ x = u ∨ x ∈ s := by
  unfold setAdd
  split
  · next h => simp only [iff_or_self]; intro he; exact he ▸ h
  · simp [List.mem_cons]

/-- A `set.add` only grows the seen set. -/
theorem subset_setAdd (s : List String) (u : String) : s ⊆ setAdd s u := by
  intro x hx
  exact mem_setAdd.mpr (Or.inr hx)

/-- The added uid is in the set after `set.add`. -/
theorem self_mem_setAdd (s : List String) (u : String) : u ∈ setAdd s u :=
  mem_setAdd.mpr (Or.inl rfl)

/-- A successfully parsed snapshot carries the uid of its message. -/
theorem parse_email_uid {n : String} {m : Msg} {snap : EmailSnapshot}
    (h : parse_email n m = some snap) : snap.uid = m.uid := by
  unfold parse_email at h
  split at h
  · cases h; rfl
  · cases h

/-- One message-loop step preserves the fold invariant, grows the seen set and only appends snapshots. -/
theorem processMessage_inv {seen₀ : List String} {acc : DoFetchAcc}
    (name : String) (boot : Bool) (started : Int) (m : Msg)
    (h : DoFetchInv seen₀ acc) :
    DoFetchInv seen₀ (processMessage name boot started acc m)
    ∧ acc.seen ⊆ (processMessage name boot started acc m).seen
    ∧ ∃ Δ, (processMessage name boot started acc m).snapshots = acc.snapshots ++ Δ := by
  obtain ⟨h1, h2, h3, h4⟩ := h
  unfold processMessage
  split
  · exact ⟨⟨h1, h2, h3, h4⟩, fun x hx => hx, [], by simp⟩
  · next hmem =>
    split
    · refine ⟨⟨fun x hx => subset_setAdd _ _ (h1 hx), h2,
        fun s hs => subset_setAdd _ _ (h3 s hs), h4⟩,
        subset_setAdd _ _, [], by simp⟩
    · split
      · refine ⟨⟨fun x hx => subset_setAdd _ _ (h1 hx), h2,
          fun s hs => subset_setAdd _ _ (h3 s hs), h4⟩,
          subset_setAdd _ _, [], by simp⟩
      · split
        · next snap hparse =>
          have huid : snap.uid = m.uid := parse_email_uid hparse
          refine ⟨⟨fun x hx => subset_setAdd _ _ (h1 hx), ?_, ?_, ?_⟩,
            subset_setAdd _ _, [snap], rfl⟩
          · simp only [List.map_append, List.map_cons, List.map_nil]
            rw [List.nodup_append]
            refine ⟨h2, List.nodup_singleton _, ?_⟩
            intro u hu hu'
            simp only [List.mem_singleton] at hu'
            obtain ⟨s, hs, rfl⟩ := List.mem_map.mp hu
            exact hmem (huid ▸ hu' ▸ h3 s hs)
          · intro s hs
            rcases List.mem_append.mp hs with hs | hs
            · exact subset_setAdd _ _ (h3 s hs)
            · simp only [List.mem_singleton] at hs
              subst hs
              exact huid ▸ self_mem_setAdd _ _
          · intro s hs
            rcases List.mem_append.mp hs with hs | hs
            · exact h4 s hs
            · simp only [List.mem_singleton] at hs
              subst hs
              rw [huid]
              intro hc
              exact hmem (h1 hc)
        · exact ⟨⟨h1, h2, h3, h4⟩, fun x hx => hx, [], by simp⟩

/-- The whole message loop preserves the fold invariant, grows the seen set and only appends snapshots. -/
theorem foldl_processMessage_inv {seen₀ : List String}
    (name : String) (boot : Bool) (started : Int) :
    ∀ (msgs : List Msg) (acc : DoFetchAcc), DoFetchInv seen₀ acc →
    DoFetchInv seen₀ (msgs.foldl (processMessage name boot started) acc)
    ∧ acc.seen ⊆ (msgs.foldl (processMessage name boot started) acc).seen
    ∧ ∃ Δ, (msgs.foldl (processMessage name boot started) acc).snapshots
        = acc.snapshots ++ Δ
  | [], acc, h => ⟨h, fun x hx => hx, [], by simp⟩
  | m :: ms, acc, h => by
    obtain ⟨h', hsub, Δ₁, hΔ₁⟩ := processMessage_inv name boot started m h
    obtain ⟨h'', hsub', Δ₂, hΔ₂⟩ := foldl_processMessage_inv name boot started ms _ h'
    refine ⟨h'', fun x hx => hsub' (hsub hx), Δ₁ ++ Δ₂, ?_⟩
    simp only [List.foldl_cons] at hΔ₂ ⊢
    rw [hΔ₂, hΔ₁, List.append_assoc]

/-- One `_do_fetch` grows the seen set, forwards pairwise-distinct uids, marks every forwarded uid seen, never forwards a previously seen uid, and completes bootstrap. -/
theorem do_fetch_props (st : FetcherState) (name : String)
    (folders : List (List Msg)) (now : Nat) :
    st.seenUids ⊆ (do_fetch st name folders now).state.seenUids
    ∧ (((do_fetch st name folders now).snapshots.map EmailSnapshot.uid).Nodup)
    ∧ (∀ s ∈ (do_fetch st name folders now).snapshots,
        s.uid ∈ (do_fetch st name folders now).state.seenUids
          ∧ s.uid ∉ st.seenUids)
    ∧ (do_fetch st name folders now).state.bootstrapDone = true := by
  have h0 : DoFetchInv st.seenUids ⟨st.seenUids, []⟩ :=
    ⟨fun x hx => hx, List.nodup_nil, by simp, by simp⟩
  obtain ⟨⟨h1, h2, h3, h4⟩, hsub, _⟩ :=
    foldl_processMessage_inv name st.bootstrapDone st.startedAt
      ((folders.map (applyLimit (fetchLimit st.bootstrapDone))).flatten)
      ⟨st.seenUids, []⟩ h0
  unfold do_fetch
  exact ⟨hsub, h2, fun s hs => ⟨h3 s hs, h4 s hs⟩, rfl⟩

/-- The retry loop grows the seen set, forwards pairwise-distinct uids, marks every forwarded uid seen, and never forwards a previously seen uid. -/
theorem fetchLoop_seen_props (name : String) (maxRetries : Nat)
    (outcome : Nat → AttemptOutcome) (stop : Bool) (now : Nat) :
    ∀ (fuel attempt : Nat) (st : FetcherState) (sleeps : List Nat),
    st.seenUids
        ⊆ (fetchLoop name maxRetries outcome stop now st attempt fuel sleeps).state.seenUids
    ∧ (((fetchLoop name maxRetries outcome stop now st attempt fuel sleeps).snapshots.map
        EmailSnapshot.uid).Nodup)
    ∧ (∀ s ∈ (fetchLoop name maxRetries outcome stop now st attempt fuel sleeps).snapshots,
        s.uid ∈ (fetchLoop name maxRetries outcome stop now st attempt fuel
          sleeps).state.seenUids
        ∧ s.uid ∉ st.seenUids)
  | 0, attempt, st, sleeps => by
    unfold fetchLoop
    exact ⟨fun x hx => hx, List.nodup_nil, by simp⟩
  | fuel + 1, attempt, st, sleeps => by
    unfold fetchLoop
    split
    · exact ⟨fun x hx => hx, List.nodup_nil, by simp⟩
    · split
      · next folders _ =>
        obtain ⟨hsub, hnd, hmem, _⟩ := do_fetch_props st name folders now
        exact ⟨hsub, hnd, hmem⟩
      · exact ⟨fun x hx => hx, List.nodup_nil, by simp⟩
      · exact fetchLoop_seen_props name maxRetries outcome stop now fuel (attempt + 1)
          { st with status := { st.status with
              state := .error
              errorMessage := "Network error, retrying (" ++ toString (attempt + 1)
                ++ "/" ++ toString maxRetries ++ ")"
              retryCount := attempt + 1 } }
          (sleeps ++ [backoffWait attempt])
      · exact ⟨fun x hx => hx, List.nodup_nil, by simp⟩

/-- One `fetch_new_emails` call grows the seen set, forwards pairwise-distinct uids, marks every forwarded uid seen, and never forwards a previously seen uid. -/
theorem fetch_new_emails_seen_props (st : FetcherState) (name : String)
    (enabled : Bool) (maxRetries : Nat) (outcome : Nat → AttemptOutcome)
    (stop : Bool) (now : Nat) :
    st.seenUids
        ⊆ (fetch_new_emails st name enabled maxRetries outcome stop now).state.seenUids
    ∧ (((fetch_new_emails st name enabled maxRetries outcome stop
        now).snapshots.map EmailSnapshot.uid).Nodup)
    ∧ (∀ s ∈ (fetch_new_emails st name enabled maxRetries outcome stop now).snapshots,
        s.uid ∈ (fetch_new_emails st name enabled maxRetries outcome stop
          now).state.seenUids
        ∧ s.uid ∉ st.seenUids) := by
  unfold fetch_new_emails
  split
  · exact ⟨fun x hx => hx, List.nodup_nil, by simp⟩
  · split
    · exact ⟨fun x hx => hx, List.nodup_nil, by simp⟩
    · exact fetchLoop_seen_props name maxRetries outcome stop now maxRetries 0
        { st with status := { st.status with state := .running, errorMessage := "" } } []

/-- Across any sequence of `fetch_new_emails` calls, forwarded uids are pairwise distinct, end up in the seen set, and uids seen at the start are never forwarded. -/
theorem runFetchSequence_props (name : String) (maxRetries : Nat) :
    ∀ (calls : List CallSpec) (st : FetcherState),
    st.seenUids ⊆ (runFetchSequence name maxRetries st calls).1.seenUids
    ∧ (((runFetchSequence name maxRetries st calls).2.map EmailSnapshot.uid).Nodup)
    ∧ (∀ s ∈ (runFetchSequence name maxRetries st calls).2,
        s.uid ∈ (runFetchSequence name maxRetries st calls).1.seenUids
        ∧ s.uid ∉ st.seenUids)
  | [], st => ⟨fun x hx => hx, List.nodup_nil, by simp [runFetchSequence]⟩
  | c :: cs, st => by
    obtain ⟨hsub₁, hnd₁, hmem₁⟩ := fetch_new_emails_seen_props st name c.enabled
      maxRetries c.outcome c.stopCheck c.now
    obtain ⟨hsub₂, hnd₂, hmem₂⟩ := runFetchSequence_props name maxRetries cs
      (fetch_new_emails st name c.enabled maxRetries c.outcome c.stopCheck c.now).state
    simp only [runFetchSequence]
    refine ⟨fun x hx => hsub₂ (hsub₁ hx), ?_, ?_⟩
    · rw [List.map_append, List.nodup_append]
      refine ⟨hnd₁, hnd₂, ?_⟩
      intro u hu hu'
      obtain ⟨s, hs, rfl⟩ := List.mem_map.mp hu
      obtain ⟨t, ht, huid⟩ := List.mem_map.mp hu'
      exact (hmem₂ t ht).2 (huid ▸ (hmem₁ s hs).1)
    · intro s hs
      rcases List.mem_append.mp hs with hs | hs
      · exact ⟨hsub₂ (hmem₁ s hs).1, (hmem₁ s hs).2⟩
      · exact ⟨(hmem₂ s hs).1, fun hc => (hmem₂ s hs).2 (hsub₁ hc)⟩

/-- During bootstrap the message loop forwards nothing and marks every listed uid seen. -/
theorem foldl_bootstrap (name : String) (started : Int) :
    ∀ (msgs : List Msg) (acc : DoFetchAcc),
    (msgs.foldl (processMessage name false started) acc).snapshots = acc.snapshots
    ∧ acc.seen ⊆ (msgs.foldl (processMessage name false started) acc).seen
    ∧ (∀ m ∈ msgs, m.uid ∈ (msgs.foldl (processMessage name false started) acc).seen)
  | [], acc => ⟨rfl, fun x hx => hx, by simp⟩
  | m :: ms, acc => by
    have hstep : (processMessage name false started acc m).snapshots = acc.snapshots
        ∧ acc.seen ⊆ (processMessage name false started acc m).seen
        ∧ m.uid ∈ (processMessage name false started acc m).seen := by
      unfold processMessage
      split
      · next h => exact ⟨rfl, fun x hx => hx, h⟩
      · split
        · exact ⟨rfl, subset_setAdd _ _, self_mem_setAdd _ _⟩
        · next h2 => exact (h2 (by simp)).elim
    obtain ⟨h1, h2, h3⟩ := hstep
    obtain ⟨g1, g2, g3⟩ := foldl_bootstrap name started ms
      (processMessage name false started acc m)
    refine ⟨?_, fun x hx => g2 (h2 hx), ?_⟩
    · simp only [List.foldl_cons]
      rw [g1, h1]
    · intro x hx
      rcases List.mem_cons.mp hx with rfl | hx
      · exact g2 h3
      · exact g3 x hx

/-- A fetch whose three attempts all raise network errors sleeps exactly the backoff schedule and ends in the Error state with the exhaustion message. -/
theorem fetch_all_net_error (st : FetcherState) (name : String)
    (outcome : Nat → AttemptOutcome) (e : Nat → String) (now : Nat)
    (herr : st.status.is_errored = false)
    (hout : ∀ k, k < 3 → outcome k = .netError (e k)) :
    (fetch_new_emails st name true 3 outcome false now).sleeps = [5, 10, 30]
    ∧ (fetch_new_emails st name true 3 outcome false now).snapshots = []
    ∧ (fetch_new_emails st name true 3 outcome false now).state.status.state
        = AccountState.error
    ∧ (fetch_new_emails st name true 3 outcome false now).state.status.errorMessage
        = "Failed after 3 retries"
    ∧ (fetch_new_emails st name true 3 outcome false now).state.status.retryCount = 3
    ∧ (fetch_new_emails st name true 3 outcome false now).state.status.is_errored
        = false := by
  have h0 := hout 0 (by norm_num)
  have h1 := hout 1 (by norm_num)
  have h2 := hout 2 (by norm_num)
  refine ⟨?_, ?_, ?_, ?_, ?_, ?_⟩ <;>
    (simp [fetch_new_emails, fetchLoop, herr, h0, h1, h2, backoffWait,
      BACKOFF_BASE]; try rfl)

/-- Keys of a dict after assignment: unchanged for an existing key, appended for a new one. -/
theorem dictKeys_dictInsert {α : Type} (d : List (String × α)) (k : String)
    (v : α) :
    dictKeys (dictInsert d k v)
      = if k ∈ dictKeys d then dictKeys d else dictKeys d ++ [k] := by
  unfold dictInsert
  split
  · simp only [dictKeys, List.map_map]
    apply List.map_congr_left
    intro x _
    by_cases hx : x.1 = k <;> simp [hx]
  · simp [dictKeys]

/-- Size of a dict after assignment. -/
theorem length_dictInsert {α : Type} (d : List (String × α)) (k : String)
    (v : α) :
    (dictInsert d k v).length
      = if k ∈ dictKeys d then d.length else d.length + 1 := by
  unfold dictInsert
  split
  · simp
  · simp

/-- Dict assignment preserves distinctness of keys. -/
theorem nodup_dictKeys_dictInsert {α : Type} (d : List (String × α))
    (k : String) (v : α) (hnd : (dictKeys d).Nodup) :
    (dictKeys (dictInsert d k v)).Nodup := by
  rw [dictKeys_dictInsert]
  split
  · exact hnd
  · next h => simp [List.nodup_append, hnd, h]

/-- Dropping the entries whose key is among the first `n` keys of a duplicate-free dict is exactly dropping its first `n` entries. -/
theorem filter_take_keys_drop {α : Type} :
    ∀ (d : List (String × α)) (n : Nat), (dictKeys d).Nodup →
    d.filter (fun p => p.1 ∉ (dictKeys d).take n) = d.drop n
  | [], n, _ => by simp
  | p :: rest, 0, _ => by
    rw [List.drop_zero]
    apply List.filter_eq_self.mpr
    intro a _
    simp
  | p :: rest, n + 1, hnd => by
    simp only [dictKeys, List.map_cons] at hnd ⊢
    have hp : p.1 ∉ rest.map (·.1) := (List.nodup_cons.mp hnd).1
    have hrest : (rest.map (·.1)).Nodup := (List.nodup_cons.mp hnd).2
    simp only [List.take_succ_cons, List.filter_cons]
    have hhead : (decide (p.1 ∉ p.1 :: (rest.map (·.1)).take n)) = false := by
      simp
    rw [hhead]
    simp only [Bool.false_eq_true, if_false]
    have hcongr : rest.filter
        (fun q => decide (q.1 ∉ p.1 :: (rest.map (·.1)).take n))
        = rest.filter (fun q => decide (q.1 ∉ (rest.map (·.1)).take n)) := by
      apply List.filter_congr
      intro q hq
      have hne : q.1 ≠ p.1 := by
        intro he
        exact hp (he ▸ List.mem_map_of_mem (·.1) hq)
      simp [List.mem_cons, hne]
    rw [hcongr]
    have hrec := filter_take_keys_drop rest n hrest
    simp only [dictKeys] at hrec
    rw [hrec, List.drop_succ_cons]

/-- One `cache_email` call keeps the email cache at no more than 200 entries with duplicate-free keys. -/
theorem cache_email_invariant (bot : BotHandlerState) (s : EmailSnapshot)
    (l : Option String)
    (hnd : (dictKeys bot.emailCache).Nodup)
    (hlen : bot.emailCache.length ≤ 200) :
    (cache_email bot s l).emailCache.length ≤ 200
    ∧ (dictKeys (cache_email bot s l).emailCache).Nodup := by
  have hndec := nodup_dictKeys_dictInsert bot.emailCache s.uid s hnd
  have hlenec : (dictInsert bot.emailCache s.uid s).length ≤ 201 := by
    rw [length_dictInsert]
    split <;> omega
  have hdrop := filter_take_keys_drop (dictInsert bot.emailCache s.uid s)
    100 hndec
  by_cases hgt : 200 < (dictInsert bot.emailCache s.uid s).length
  · have hre : (cache_email bot s l).emailCache
        = (dictInsert bot.emailCache s.uid s).drop 100 := by
      simp only [cache_email]
      rw [if_pos hgt]
      exact hdrop
    rw [hre]
    constructor
    · rw [List.length_drop]
      omega
    · have hkeys : dictKeys ((dictInsert bot.emailCache s.uid s).drop 100)
          = (dictKeys (dictInsert bot.emailCache s.uid s)).drop 100 := by
        simp [dictKeys, List.map_drop]
      rw [hkeys]
      exact hndec.sublist (List.drop_sublist _ _)
  · have hre : (cache_email bot s l).emailCache
        = dictInsert bot.emailCache s.uid s := by
      simp only [cache_email]
      rw [if_neg hgt]
    rw [hre]
    exact ⟨by omega, hndec⟩

/-- Any sequence of `cache_email` calls keeps the email cache at no more than 200 entries with duplicate-free keys. -/
theorem runCacheCalls_invariant :
    ∀ (calls : List (EmailSnapshot × Option String)) (bot : BotHandlerState),
    (dictKeys bot.emailCache).Nodup → bot.emailCache.length ≤ 200 →
    (runCacheCalls bot calls).emailCache.length ≤ 200
    ∧ (dictKeys (runCacheCalls bot calls).emailCache).Nodup
  | [], _, hnd, hlen => ⟨hlen, hnd⟩
  | c :: cs, bot, hnd, hlen => by
    obtain ⟨h1, h2⟩ := cache_email_invariant bot c.1 c.2 hnd hlen
    exact runCacheCalls_invariant cs (cache_email bot c.1 c.2) h2 h1

/-! ## Claims -/

/-- C1, counterexample to the claim as stated: after bootstrap, the post-start message `msgParseFail` (uid 1) whose parse raises is encountered by the fetch, yet it is neither forwarded-and-marked-seen nor skipped-and-marked-seen — its uid is left out of the seen set entirely (fetcher.py:240-245 adds the uid to the seen set only after a successful parse). -/
theorem c1_claim_counterexample :
    msgParseFail.uid = "1"
    ∧ ¬ (∀ u ∈ ["1"],
        (u ∈ fetchC1.snapshots.map EmailSnapshot.uid ∧ u ∈ fetchC1.state.seenUids)
        ∨ (u ∉ fetchC1.snapshots.map EmailSnapshot.uid
            ∧ u ∈ fetchC1.state.seenUids)) := by
  decide

/-- C1 (amended): once bootstrap is complete, across any sequence of `fetch_new_emails` calls with no intervening `clear_seen`, no uid appears in the returned snapshot lists more than once, uids already seen are never forwarded, and every forwarded uid is marked seen; each encountered uid not yet seen is either skipped-and-marked (pre-start timestamp), forwarded-once-and-marked, or — on parse failure — dropped without being marked seen. -/
theorem c1_dedup_amended (accountName : String) (maxRetries : Nat)
    (st₀ : FetcherState) (calls : List CallSpec)
    (_hboot : st₀.bootstrapDone = true) :
    (((runFetchSequence accountName maxRetries st₀ calls).2.map
        EmailSnapshot.uid).Nodup
      ∧ (∀ u ∈ st₀.seenUids,
          u ∉ (runFetchSequence accountName maxRetries st₀ calls).2.map
            EmailSnapshot.uid)
      ∧ (∀ s ∈ (runFetchSequence accountName maxRetries st₀ calls).2,
          s.uid ∈ (runFetchSequence accountName maxRetries st₀ calls).1.seenUids))
    ∧ (∀ (acc : DoFetchAcc) (m : Msg), m.uid ∉ acc.seen →
        (dateBeforeStart m.date st₀.startedAt = true
          ∧ (processMessage accountName true st₀.startedAt acc m).snapshots
              = acc.snapshots
          ∧ (processMessage accountName true st₀.startedAt acc m).seen
              = setAdd acc.seen m.uid)
        ∨ (dateBeforeStart m.date st₀.startedAt = false ∧ m.parseOk = true
          ∧ (∃ snap, parse_email accountName m = some snap ∧ snap.uid = m.uid
              ∧ (processMessage accountName true st₀.startedAt acc m).snapshots
                  = acc.snapshots ++ [snap])
          ∧ (processMessage accountName true st₀.startedAt acc m).seen
              = setAdd acc.seen m.uid)
        ∨ (dateBeforeStart m.date st₀.startedAt = false ∧ m.parseOk = false
          ∧ processMessage accountName true st₀.startedAt acc m = acc)) := by
  obtain ⟨hsub, hnd, hmem⟩ := runFetchSequence_props accountName maxRetries calls st₀
  constructor
  · refine ⟨hnd, ?_, fun s hs => (hmem s hs).1⟩
    intro u hu hu'
    obtain ⟨s, hs, rfl⟩ := List.mem_map.mp hu'
    exact (hmem s hs).2 hu
  · intro acc m hm
    by_cases hd : dateBeforeStart m.date st₀.startedAt = true
    · refine Or.inl ⟨hd, ?_, ?_⟩
      · simp [processMessage, hm, hd]
      · simp [processMessage, hm, hd]
    · rw [Bool.not_eq_true] at hd
      by_cases hp : m.parseOk = true
      · have hsnap : parse_email accountName m
            = some { uid := m.uid, accountName := accountName
                     subject := if m.subject = "" then "(No subject)" else m.subject
                     sender := m.sender, date := m.date, bodyText := m.bodyText
                     bodyHtml := m.bodyHtml, webLink := "" } := by
          simp [parse_email, hp]
        refine Or.inr (Or.inl ⟨hd, hp, ?_, ?_⟩)
        · exact ⟨_, hsnap, rfl, by simp [processMessage, hm, hd, hsnap]⟩
        · simp [processMessage, hm, hd, hsnap]
      · rw [Bool.not_eq_true] at hp
        refine Or.inr (Or.inr ⟨hd, hp, ?_⟩)
        simp [processMessage, hm, hd, parse_email, hp]

/-- Witness for C1: the amended theorem applied to the concrete one-call sequence `callC1` from a bootstrapped state. -/
theorem c1_dedup_amended_witness :
    ((runFetchSequence "Work" 3 stBootDone [callC1]).2.map
      EmailSnapshot.uid).Nodup :=
  (c1_dedup_amended "Work" 3 stBootDone [callC1] rfl).1.1

/-- C2: for every mode, AI configuration and LLM outcome, one `_dispatch_notification` call registers the snapshot in the pending cache exactly once but issues zero outbound notifier sends — manager.py:320 passes 4 positional arguments to the 3-parameter `send_with_mode` (telegram.py:85-90), so the call raises `TypeError` before the notifier body runs; the claimed exactly-one outbound call never happens. -/
theorem c2_dispatch_zero_outbound (b : BotHandlerState) (aiCfg : AIConfig)
    (llm : LLMOutcome) (snapshot : EmailSnapshot) :
    (dispatch_notification (some b) aiCfg llm snapshot).1.outboundSends = []
    ∧ (dispatch_notification (some b) aiCfg llm snapshot).1.cacheCalls = 1
    ∧ (dispatch_notification (some b) aiCfg llm snapshot).1.successCount = 0 := by
  have harity : pythonArityOk managerSendWithModeArgs sendWithModeMinArgs
      sendWithModeMaxArgs = false := by decide
  rcases hm : b.mode with _ | _ | _ <;>
    rcases he : aiCfg.enabled with _ | _ <;>
    rcases llm with _ | _ | _ | _ <;>
      simp [dispatch_notification, call_send_with_mode, harity, analyze_email,
        hm, he, Except.map, AIConfig.getattr_language]

/-- C3: on the very first fetch for an account (bootstrap not yet done), `_do_fetch` forwards nothing, marks the uid of every listed unseen message as seen, and completes bootstrap. -/
theorem c3_bootstrap_no_forward (st : FetcherState) (accountName : String)
    (folders : List (List Msg)) (now : Nat)
    (hboot : st.bootstrapDone = false) :
    (do_fetch st accountName folders now).snapshots = []
    ∧ (∀ m ∈ folders.flatten,
        m.uid ∈ (do_fetch st accountName folders now).state.seenUids)
    ∧ (do_fetch st accountName folders now).state.bootstrapDone = true := by
  have hlim : folders.map (applyLimit (fetchLimit false)) = folders := by
    have happ : applyLimit (fetchLimit false) = fun l => l := by
      funext l
      rfl
    rw [happ]
    simp
  obtain ⟨h1, _, h3⟩ := foldl_bootstrap accountName st.startedAt
    folders.flatten ⟨st.seenUids, []⟩
  refine ⟨?_, ?_, ?_⟩ <;> simp only [do_fetch, hboot, hlim]
  · simpa using h1
  · intro m hm
    simpa using h3 m hm

/-- Witness for C3 at a concrete fresh state and a one-message listing. -/
theorem c3_bootstrap_no_forward_witness :
    (do_fetch stBootNew "Work" [[msgNew1]] 0).snapshots = []
    ∧ (∀ m ∈ [[msgNew1]].flatten,
        m.uid ∈ (do_fetch stBootNew "Work" [[msgNew1]] 0).state.seenUids)
    ∧ (do_fetch stBootNew "Work" [[msgNew1]] 0).state.bootstrapDone = true :=
  c3_bootstrap_no_forward stBootNew "Work" [[msgNew1]] 0 rfl

/-- C4: an authentication error on the first attempt moves the account directly to AuthFailed with the authentication error message, returning the empty list with exactly one attempt and zero backoff sleep; any fetch on an account in AuthFailed or Disabled returns the empty list immediately with the state unchanged; `reset_error` on AuthFailed returns the account to Idle, clearing the terminal state. -/
theorem c4_auth_fail_fast :
    (∀ (st : FetcherState) (name e : String) (n : Nat)
        (outcome : Nat → AttemptOutcome) (now : Nat),
      st.status.is_errored = false → outcome 0 = .loginError e →
      (fetch_new_emails st name true (n + 1) outcome false now).snapshots = []
      ∧ (fetch_new_emails st name true (n + 1) outcome false now).sleeps = []
      ∧ (fetch_new_emails st name true (n + 1) outcome false now).attemptsMade = 1
      ∧ (fetch_new_emails st name true (n + 1) outcome false
          now).state.status.state = AccountState.authFailed
      ∧ (fetch_new_emails st name true (n + 1) outcome false
          now).state.status.errorMessage = "Authentication failed: " ++ e)
    ∧ (∀ (st : FetcherState) (name : String) (enabled : Bool) (maxRetries : Nat)
        (outcome : Nat → AttemptOutcome) (stop : Bool) (now : Nat),
        st.status.is_errored = true →
        fetch_new_emails st name enabled maxRetries outcome stop now
          = { snapshots := [], state := st, sleeps := [], attemptsMade := 0 })
    ∧ (∀ st : FetcherState, st.status.state = AccountState.authFailed →
        (reset_error st).status.state = AccountState.idle
        ∧ (reset_error st).status.is_errored = false) := by
  refine ⟨?_, ?_, ?_⟩
  · intro st name e n outcome now herr hout
    refine ⟨?_, ?_, ?_, ?_, ?_⟩ <;>
      simp [fetch_new_emails, fetchLoop, herr, hout]
  · intro st name enabled maxRetries outcome stop now herr
    simp [fetch_new_emails, herr]
  · intro st h
    constructor <;>
      simp [reset_error, h, AccountStatus.is_errored]

/-- Witness for C4 at a concrete state and an always-failing-login outcome oracle. -/
theorem c4_auth_fail_fast_witness :
    (fetch_new_emails stBootDone "Work" true (2 + 1) outcomeAuth false 0).sleeps
        = []
    ∧ (fetch_new_emails stBootDone "Work" true (2 + 1) outcomeAuth false
        0).state.status.state = AccountState.authFailed :=
  ⟨(c4_auth_fail_fast.1 stBootDone "Work" "bad password" 2 outcomeAuth 0
      (by decide) rfl).2.1,
   (c4_auth_fail_fast.1 stBootDone "Work" "bad password" 2 outcomeAuth 0
      (by decide) rfl).2.2.2.1⟩

/-- C5: with max_retries 3 and network errors on all attempts, the observed sleep sequence is exactly [5, 10, 30], nothing is returned, and the final status is Error with the exhaustion message; the resulting state is not terminal, and an identically failing next call again sleeps [5, 10, 30] — the attempt sequence restarts from attempt 0. -/
theorem c5_backoff_schedule (st : FetcherState) (name : String)
    (outcome outcome2 : Nat → AttemptOutcome) (e e2 : Nat → String)
    (now now2 : Nat)
    (herr : st.status.is_errored = false)
    (hout : ∀ k, k < 3 → outcome k = .netError (e k))
    (hout2 : ∀ k, k < 3 → outcome2 k = .netError (e2 k)) :
    (fetch_new_emails st name true 3 outcome false now).sleeps = [5, 10, 30]
    ∧ (fetch_new_emails st name true 3 outcome false now).snapshots = []
    ∧ (fetch_new_emails st name true 3 outcome false now).state.status.state
        = AccountState.error
    ∧ (fetch_new_emails st name true 3 outcome false now).state.status.errorMessage
        = "Failed after 3 retries"
    ∧ (fetch_new_emails (fetch_new_emails st name true 3 outcome false now).state
        name true 3 outcome2 false now2).sleeps = [5, 10, 30] := by
  obtain ⟨a1, a2, a3, a4, _, a6⟩ := fetch_all_net_error st name outcome e now herr hout
  obtain ⟨b1, _⟩ := fetch_all_net_error _ name outcome2 e2 now2 a6 hout2
  exact ⟨a1, a2, a3, a4, b1⟩

/-- Witness for C5 at a concrete state and an always-network-error outcome oracle. -/
theorem c5_backoff_schedule_witness :
    (fetch_new_emails stBootDone "Work" true 3 outcomeNet false 0).sleeps
      = [5, 10, 30] :=
  (c5_backoff_schedule stBootDone "Work" outcomeNet outcomeNet
    (fun _ => "conn reset") (fun _ => "conn reset") 0 0 (by decide)
    (fun _ _ => rfl) (fun _ _ => rfl)).1

/-- C6, counterexample to the claim as stated: a fetch whose first attempt raises an unexpected exception moves the account to Error, but performs no backoff sleep, leaves the retry counter at 0, and makes no further attempt (fetcher.py:175-185 returns immediately) — contradicting the claim that every transient failure increments the retry counter and triggers a backoff sleep. -/
theorem c6_claim_counterexample :
    fetchC6.state.status.state = AccountState.error
    ∧ fetchC6.sleeps = []
    ∧ fetchC6.state.status.retryCount = 0
    ∧ fetchC6.attemptsMade = 1
    ∧ ¬ (fetchC6.state.status.retryCount = 1 ∧ 0 < fetchC6.sleeps.length) := by
  decide

/-- C6 (amended): a network timeout or connection error moves the account to Error, sets the retry counter, and sleeps the schedule wait before the next attempt is made (one sleep recorded, two attempts run); an unexpected exception moves the account to Error with the unexpected-error message and returns the empty list immediately — no sleep, no retry-count change, no further attempt. -/
theorem c6_transient_amended (st : FetcherState) (name e f : String)
    (folders : List (List Msg)) (outcome outcome2 outcome3 : Nat → AttemptOutcome)
    (now : Nat)
    (herr : st.status.is_errored = false)
    (h0 : outcome 0 = .netError e) (h1 : outcome 1 = .success folders)
    (g0 : outcome2 0 = .unexpectedError f)
    (k0 : outcome3 0 = .netError e) (k1 : outcome3 1 = .unexpectedError f) :
    ((fetch_new_emails st name true 3 outcome false now).sleeps = [backoffWait 0]
      ∧ (fetch_new_emails st name true 3 outcome false now).attemptsMade = 2
      ∧ (fetch_new_emails st name true 3 outcome false now).state.status.state
          = AccountState.idle)
    ∧ ((fetch_new_emails st name true 3 outcome2 false now).snapshots = []
      ∧ (fetch_new_emails st name true 3 outcome2 false now).sleeps = []
      ∧ (fetch_new_emails st name true 3 outcome2 false now).attemptsMade = 1
      ∧ (fetch_new_emails st name true 3 outcome2 false now).state.status.state
          = AccountState.error
      ∧ (fetch_new_emails st name true 3 outcome2 false
          now).state.status.retryCount = st.status.retryCount
      ∧ (fetch_new_emails st name true 3 outcome2 false
          now).state.status.errorMessage = "Unexpected error: " ++ f.take 100)
    ∧ ((fetch_new_emails st name true 3 outcome3 false now).sleeps = [5]
      ∧ (fetch_new_emails st name true 3 outcome3 false now).attemptsMade = 2
      ∧ (fetch_new_emails st name true 3 outcome3 false
          now).state.status.retryCount = 1
      ∧ (fetch_new_emails st name true 3 outcome3 false now).state.status.state
          = AccountState.error) := by
  refine ⟨⟨?_, ?_, ?_⟩, ⟨?_, ?_, ?_, ?_, ?_, ?_⟩, ⟨?_, ?_, ?_, ?_⟩⟩ <;>
    (simp [fetch_new_emails, fetchLoop, herr, h0, h1, g0, k0, k1, backoffWait,
      BACKOFF_BASE]; try rfl)

/-- Witness for C6 at concrete outcome oracles. -/
theorem c6_transient_amended_witness :
    (fetch_new_emails stBootDone "Work" true 3 outcomeUnexpected false
        0).sleeps = []
    ∧ (fetch_new_emails stBootDone "Work" true 3 outcomeNetThenBoom false
        0).state.status.retryCount = 1 :=
  ⟨(c6_transient_amended stBootDone "Work" "t" "boom" [] outcomeNetThenOk
      outcomeUnexpected outcomeNetThenBoom 0 (by decide) rfl rfl rfl rfl
      rfl).2.1.2.1,
   (c6_transient_amended stBootDone "Work" "t" "boom" [] outcomeNetThenOk
      outcomeUnexpected outcomeNetThenBoom 0 (by decide) rfl rfl rfl rfl
      rfl).2.2.2.2.1⟩

/-- C7: when the AI analysis fails, Agent mode does not fall back to the plain forward. A failed LLM call with AI disabled yields the truthy safe-default result, and `send_with_mode` in Agent mode then attempts the structured card, which raises `AttributeError` reading the undeclared `translation` field (telegram.py:186, models.py:228-239) — no notification is produced; with AI enabled, `analyze_email` itself raises reading the undeclared `config.language` (ai.py:129), the exception escapes `_dispatch_notification`, and again zero outbound sends occur. The plain-forward shape is produced only when `send_with_mode` receives no analysis result at all. -/
theorem c7_agent_ai_failure_no_fallback :
    analyze_email { enabled := false } LLMOutcome.exception = .ok default_result
    ∧ send_with_mode snapC7 .agent (some default_result)
        = .error PyError.attributeError
    ∧ analyze_email { enabled := true } LLMOutcome.exception
        = .error PyError.attributeError
    ∧ (dispatch_notification (some { mode := .agent }) { enabled := true }
        LLMOutcome.exception snapC7).1.outboundSends = []
    ∧ (dispatch_notification (some { mode := .agent }) { enabled := true }
        LLMOutcome.exception snapC7).2.2 = some PyError.attributeError
    ∧ send_with_mode snapC7 .agent none = .ok (.plainForward snapC7) := by
  refine ⟨rfl, rfl, rfl, rfl, rfl, rfl⟩

/-- C8: a translate callback that finds its message id in the pending cache never sends the message containing the No-translation-available text (and sends no message at all): the handler raises at `_runtime_ai_config` (bot.py:829 assigns the undeclared `language` field of `AIConfig`), and the `result.translation` read at bot.py:753 would likewise raise — the exception is swallowed by the polling loop. -/
theorem c8_translate_crash (bot : BotHandlerState) (uid : String)
    (llm : LLMOutcome)
    (hhit : (dictGet bot.emailCache uid).isSome = true) :
    (cb_translate bot uid llm).raised = some PyError.fieldValueError
    ∧ (∀ e ∈ (cb_translate bot uid llm).effects,
        e.mentions "No translation available" = false)
    ∧ (∀ t, BotEffect.sendMessage t ∉ (cb_translate bot uid llm).effects) := by
  obtain ⟨s, hs⟩ := Option.isSome_iff_exists.mp hhit
  unfold cb_translate
  rw [hs]
  refine ⟨rfl, ?_, ?_⟩
  · intro e he
    simp [runtime_ai_config] at he
    rcases he with rfl | rfl <;> rfl
  · intro t
    simp [runtime_ai_config]

/-- Witness for C8 at a concrete cached uid. -/
theorem c8_translate_crash_witness :
    (cb_translate botC8 "u1" LLMOutcome.exception).raised
        = some PyError.fieldValueError
    ∧ (∀ e ∈ (cb_translate botC8 "u1" LLMOutcome.exception).effects,
        e.mentions "No translation available" = false)
    ∧ (∀ t, BotEffect.sendMessage t
        ∉ (cb_translate botC8 "u1" LLMOutcome.exception).effects) :=
  c8_translate_crash botC8 "u1" LLMOutcome.exception (by decide)

set_option maxRecDepth 8000 in
/-- C9: in Hybrid mode the 17-character body matching the code pattern is sent as a plain forward with no inline button, while the 400-character prose body with no code/login pattern in its leading characters is sent as a truncated 50-character preview carrying the single inline AI-summary button. -/
theorem c9_hybrid_heuristic :
    bodyShort.length = 17
    ∧ should_skip_ai bodyShort = true
    ∧ skipPatternSearch bodyShort.toList = true
    ∧ send_with_mode snapShort .hybrid none = .ok (.plainForward snapShort)
    ∧ bodyLong.length = 400
    ∧ should_skip_ai bodyLong = false
    ∧ send_with_mode snapLong .hybrid none
        = .ok (.hybridPreview snapLong (bodyLong.take 50 ++ "…")
            [[⟨"✨ AI Summary", "summ_s2"⟩]]) := by
  refine ⟨by decide, by decide, by decide, rfl, by decide, by decide, rfl⟩

/-- C10: starting from the empty caches, after every sequence of `cache_email` calls the email cache holds at most 200 entries (with duplicate-free keys); whenever an insertion pushes the email cache above 200 entries, exactly its 100 oldest entries by insertion order are evicted — the retained cache is the insertion result with its first 100 entries removed — and the source-language cache simultaneously keeps exactly its entries whose key is not among those 100 oldest keys. -/
theorem c10_cache_bound :
    (∀ calls : List (EmailSnapshot × Option String),
      (runCacheCalls {} calls).emailCache.length ≤ 200
      ∧ (dictKeys (runCacheCalls {} calls).emailCache).Nodup)
    ∧ (∀ (bot : BotHandlerState) (s : EmailSnapshot) (l : Option String),
        (dictKeys bot.emailCache).Nodup →
        200 < (dictInsert bot.emailCache s.uid s).length →
        (dictInsert bot.emailCache s.uid s).take 100
            ++ (cache_email bot s l).emailCache
          = dictInsert bot.emailCache s.uid s
        ∧ (cache_email bot s l).emailCache
            = (dictInsert bot.emailCache s.uid s).drop 100
        ∧ (∀ (k v : String), (k, v) ∈ (cache_email bot s l).slCache ↔
            ((k, v) ∈ slCacheInsert bot.slCache s.uid l
              ∧ k ∉ (dictKeys (dictInsert bot.emailCache s.uid s)).take 100))) := by
  constructor
  · intro calls
    exact runCacheCalls_invariant calls {} (by simp [dictKeys]) (by simp)
  · intro bot s l hnd hgt
    have hndec := nodup_dictKeys_dictInsert bot.emailCache s.uid s hnd
    have hdrop := filter_take_keys_drop (dictInsert bot.emailCache s.uid s)
      100 hndec
    have hre : (cache_email bot s l).emailCache
        = (dictInsert bot.emailCache s.uid s).drop 100 := by
      simp only [cache_email]
      rw [if_pos hgt]
      exact hdrop
    have hsl : (cache_email bot s l).slCache
        = (slCacheInsert bot.slCache s.uid l).filter
            (fun p => p.1 ∉ (dictKeys (dictInsert bot.emailCache
              s.uid s)).take 100) := by
      simp only [cache_email]
      rw [if_pos hgt]
    refine ⟨?_, hre, ?_⟩
    · rw [hre]
      exact List.take_append_drop 100 _
    · intro k v
      rw [hsl]
      simp [List.mem_filter]

set_option maxRecDepth 20000 in
/-- Witness for C10: the sequence bound at a one-call sequence, and the eviction equation at a concretely full 200-entry cache receiving a fresh uid. -/
theorem c10_cache_bound_witness :
    (runCacheCalls {}
        [({ uid := "a", accountName := "acct" }, none)]).emailCache.length ≤ 200
    ∧ ((dictInsert botBig.emailCache snapNew.uid snapNew).take 100
        ++ (cache_email botBig snapNew none).emailCache
      = dictInsert botBig.emailCache snapNew.uid snapNew) :=
  ⟨(c10_cache_bound.1 [({ uid := "a", accountName := "acct" }, none)]).1,
   (c10_cache_bound.2 botBig snapNew none (by decide) (by decide)).1⟩

end MailBot
